import Mathlib

/-!
Shallow embedding of the `resolve-suite-frontend` repository:
the frontend API-client module (axios instance, request/response
interceptors, auth endpoint wrappers, feedback/workflow endpoint
wrappers) and the three Express server bootstrap variants in
`src/server.js`.

JavaScript strings are modelled as `List Char`; the browser-local
state touched by the client (the `token` and `user` localStorage
entries, the axios default `Authorization` header, and
`window.location.href` assignments) is modelled as an explicit
`ClientState` record threaded through the functions that mutate it.
Fallible endpoint wrappers are modelled as functions from the outcome
of the HTTP call to `Except` values: `.ok` is a normal return, `.error`
is a raised exception.
-/

namespace ResolveSuite

/-- JavaScript strings, modelled as lists of characters. -/
abbrev Str := List Char

/-- The literal bearer-scheme marker `Bearer ` (with trailing space) used
throughout the client. -/
def bearerPrefix : Str := "Bearer ".toList

/-- Computes the header value of the request interceptor
(part_000 lines 39-41): the stored token itself when it already starts
with the bearer marker, else the marker prepended to it. -/
def authHeaderValue (token : Str) : Str :=
  if bearerPrefix.isPrefixOf token then token else bearerPrefix ++ token

/-- Holds when `s` starts with the bearer marker and, after stripping it,
does not start with the marker again: `s` carries the marker exactly once. -/
def hasBearerPrefixOnce (s : Str) : Bool :=
  bearerPrefix.isPrefixOf s &&
    !(bearerPrefix.isPrefixOf (s.drop bearerPrefix.length))

/-- The axios request config, restricted to the one field the request
interceptor writes: `config.headers.Authorization`. -/
structure RequestConfig where
  authorization : Option Str
deriving DecidableEq

/-- The request interceptor (part_000 lines 35-59): reads the persisted
token and, under the JS truthiness guard `if (token)`, sets the
`Authorization` header to `authHeaderValue` of it; an absent entry or a
persisted empty string (falsy) leaves the config unchanged.  Logging is
not state. -/
def requestInterceptor (storedToken : Option Str) (cfg : RequestConfig) :
    RequestConfig :=
  match storedToken with
  | some t =>
    if t = [] then cfg
    else { cfg with authorization := some (authHeaderValue t) }
  | none => cfg

/-- Browser-local client state: the `token` and `user` localStorage
entries, the axios default `Authorization` header (the field
`Authorization` of `API.defaults.headers.common`), and the list of
navigation targets assigned to `window.location.href` (in order). -/
structure ClientState where
  tokenEntry : Option Str
  userEntry : Option Str
  defaultAuth : Option Str
  redirects : List Str
deriving DecidableEq

/-- Function `handleUnauthorized` (part_000 lines 98-104): removes the
`token` and `user` storage entries, deletes the default `Authorization`
header, and assigns `/login` to `window.location.href`. -/
def handleUnauthorized (s : ClientState) : ClientState :=
  { tokenEntry := none
    userEntry := none
    defaultAuth := none
    redirects := s.redirects ++ ["/login".toList] }

/-- Models `error.response.data` as seen by the client: an object whose
`msg` field may be absent (`none`). -/
structure RespData where
  msg : Option Str
deriving DecidableEq

/-- Models `error.response`: the HTTP status and the (possibly absent or
falsy) response body. -/
structure ErrResponse where
  status : Nat
  data : Option RespData
deriving DecidableEq

/-- An axios error object: `response` is `none` for network-level
failures where no response was received; `message` is `error.message`. -/
structure AxiosError where
  response : Option ErrResponse
  message : Str
deriving DecidableEq

/-- Models the optional-chained access `error.response?.status`. -/
def AxiosError.status (e : AxiosError) : Option Nat :=
  e.response.map (fun r => r.status)

/-- The rejection handler of the response interceptor (part_000 lines 73-94):
when `error.response?.status === 401` it calls `handleUnauthorized`,
then (in all cases) re-raises the original error via
`Promise.reject(error)`.  The network-error branch only logs. -/
def responseErrorInterceptor (e : AxiosError) (s : ClientState) :
    ClientState × AxiosError :=
  (if e.status = some 401 then handleUnauthorized s else s, e)

/-- The outcome of an awaited HTTP call: the fulfilled response data, or
a rejected axios error. -/
inductive ApiOutcome (α : Type) where
  | success (data : α)
  | failure (e : AxiosError)
deriving DecidableEq

/-- The fields destructured from a successful `/auth/login` response body:
`{ token, role, userId, firstName, lastName, departmentId }`. -/
structure LoginResponse where
  token : Str
  role : Str
  userId : Nat
  firstName : Str
  lastName : Str
  departmentId : Option Nat
deriving DecidableEq

/-- The session object `loginUser` returns for the auth context. -/
structure Session where
  token : Str
  role : Str
  email : Str
  userId : Nat
  firstName : Str
  lastName : Str
  organizationId : Nat
  departmentId : Option Nat
  isAuthenticated : Bool
deriving DecidableEq

/-- Function `loginUser` (part_000 lines 157-182), success path: builds
`fullToken = `Bearer ${token}``, stores it under the `token` storage key,
and returns the assembled session object merging the response fields with
the caller-supplied `email` and `organizationId`.  The prefix is added
unconditionally — there is no `startsWith` guard here. -/
def loginUser (email : Str) (organizationId : Nat) (resp : LoginResponse)
    (s : ClientState) : ClientState × Session :=
  let fullToken := bearerPrefix ++ resp.token
  ({ s with tokenEntry := some fullToken },
   { token := fullToken
     role := resp.role
     email := email
     userId := resp.userId
     firstName := resp.firstName
     lastName := resp.lastName
     organizationId := organizationId
     departmentId := resp.departmentId
     isAuthenticated := true })

/-- The local cleanup both branches of `logoutUser` perform: remove the
`token` and `user` storage entries and delete the default
`Authorization` header. -/
def clearLocalSession (s : ClientState) : ClientState :=
  { s with tokenEntry := none, userEntry := none, defaultAuth := none }

/-- Function `logoutUser` (part_000 lines 184-199): awaits `POST /auth/logout`;
on success clears local session state and returns normally; on failure
clears the same local session state in the catch block and re-throws the
error. -/
def logoutUser (remote : ApiOutcome Unit) (s : ClientState) :
    Except AxiosError Unit × ClientState :=
  match remote with
  | .success _ => (.ok (), clearLocalSession s)
  | .failure e => (.error e, clearLocalSession s)

/-- A value raised by the catch block of an endpoint wrapper:
the response payload (`error.response?.data`), the message string of
the error, or the raw axios error rethrown unchanged. -/
inductive Thrown where
  | payload (d : RespData)
  | message (m : Str)
  | raw (e : AxiosError)
deriving DecidableEq

/-- Models `error.response?.data || error.message`: the response payload
when the response exists and carries a (truthy) body, else the message. -/
def payloadOrMessage (e : AxiosError) : Thrown :=
  match e.response.bind (fun r => r.data) with
  | some d => .payload d
  | none => .message e.message

/-- Function `getWorkflowForComplaint` (part_000 lines 540-550): returns the
response data on success; on error returns `null` (modelled `Option.none`)
when `error.response?.status === 404`, otherwise throws
`error.response?.data || error.message`. -/
def getWorkflowForComplaint (α : Type) (out : ApiOutcome α) :
    Except Thrown (Option α) :=
  match out with
  | .success d => .ok (some d)
  | .failure e =>
    if e.status = some 404 then .ok none
    else .error (payloadOrMessage e)

/-- Function `getFeedbackByComplaint` (part_000 lines 690-702): returns the
response data on success; on error returns `null` when
`error.response?.status === 404`, otherwise rethrows the raw error. -/
def getFeedbackByComplaint (α : Type) (out : ApiOutcome α) :
    Except Thrown (Option α) :=
  match out with
  | .success d => .ok (some d)
  | .failure e =>
    if e.status = some 404 then .ok none
    else .error (.raw e)

/-- The `/organizations/register` response body, restricted to the field
`registerOrganization` inspects: `organizationId` (`none` models an
absent/undefined field, `some 0` a present but falsy one). -/
structure OrgRegData where
  organizationId : Option Nat
deriving DecidableEq

/-- JavaScript truthiness of `response.data.organizationId`. -/
def orgIdTruthy (d : OrgRegData) : Bool :=
  match d.organizationId with
  | some n => n != 0
  | none => false

/-- The message of the `Error` thrown inside the try block of
`registerOrganization` when the response carries no truthy
`organizationId`. -/
def missingIdMsg : Str := "Organization ID not received in response".toList

/-- The fixed fallback message of the catch block of
`registerOrganization`. -/
def regFallbackMsg : Str :=
  "Failed to register organization. Please try again.".toList

/-- A value that can reach the catch block of `registerOrganization`: either
the axios error rejected by the HTTP call, or the plain `Error` thrown by
the try block itself (which has no `response` property). -/
inductive RegError where
  | axios (e : AxiosError)
  | plainError (msg : Str)
deriving DecidableEq

/-- The try block of `registerOrganization` (part_000 lines 118-126):
awaits the POST; if `response.data.organizationId` is not truthy it
throws a `new Error` carrying `missingIdMsg`, otherwise it returns
`response.data`.  A rejected HTTP call surfaces as an axios error. -/
def registerOrganizationTry (out : ApiOutcome OrgRegData) :
    Except RegError OrgRegData :=
  match out with
  | .failure e => .error (.axios e)
  | .success d =>
    if orgIdTruthy d then .ok d else .error (.plainError missingIdMsg)

/-- Models `error.response?.data?.msg` filtered through the `if (...)`
truthiness test in the catch block of `registerOrganization`: `none`
when the chain is undefined or the msg is falsy (empty). -/
def truthyRespMsg (e : AxiosError) : Option Str :=
  match (e.response.bind (fun r => r.data)).bind (fun d => d.msg) with
  | some m => if m = [] then none else some m
  | none => none

/-- The catch block of `registerOrganization` (part_000 lines 127-133):
if `error.response?.data?.msg` is truthy, throws `new Error(msg)`;
otherwise throws the fixed fallback `Error`.  A plain `Error` thrown by
the try block has no `response` property, so it always takes the
fallback path. -/
def registerOrganizationCatch (err : RegError) : Str :=
  match err with
  | .axios e =>
    match truthyRespMsg e with
    | some m => m
    | none => regFallbackMsg
  | .plainError _ => regFallbackMsg

/-- Function `registerOrganization` (part_000 lines 117-134): the result
of the try block, with any raised value routed through the catch block
of the function itself (the `throw` inside the try is caught by the
surrounding catch). -/
def registerOrganization (out : ApiOutcome OrgRegData) :
    Except Str OrgRegData :=
  match registerOrganizationTry out with
  | .ok d => .ok d
  | .error err => .error (registerOrganizationCatch err)

/-- A filter/params object, modelled as an ordered key-value list; JS
property lookup returns the value at the first matching key. -/
def jsLookup (params : List (Str × Str)) (k : Str) : Option Str :=
  match params with
  | [] => none
  | (k', v) :: rest => if k' = k then some v else jsLookup rest k

/-- Function `getComplaints` (part_000 lines 392-399) forwards the whole `filters`
object as the axios `params` option: every key-value pair is serialized
into the query string unchanged. -/
def getComplaintsParams (filters : List (Str × Str)) : List (Str × Str) :=
  filters

/-- Models one guarded append
`if (params.k) queryParams.append(k, params.k)`: it contributes the pair
when the value is present and truthy (non-empty), nothing otherwise. -/
def appendIfTruthy (params : List (Str × Str)) (k : Str) :
    List (Str × Str) :=
  match jsLookup params k with
  | some v => if v = [] then [] else [(k, v)]
  | none => []

/-- The query string `getAllFeedback` (part_000 lines 715-731) builds:
only `page`, `limit`, `rating` and `department` are appended, each only
when truthy; every other key of `params` is dropped. -/
def getAllFeedbackQuery (params : List (Str × Str)) : List (Str × Str) :=
  appendIfTruthy params "page".toList ++ appendIfTruthy params "limit".toList
    ++ appendIfTruthy params "rating".toList
    ++ appendIfTruthy params "department".toList

/-- The query string `getFeedbackByDepartment` (part_000 lines 755-770)
builds: only `page`, `limit` and `rating`, each only when truthy. -/
def getFeedbackByDepartmentQuery (params : List (Str × Str)) :
    List (Str × Str) :=
  appendIfTruthy params "page".toList ++ appendIfTruthy params "limit".toList
    ++ appendIfTruthy params "rating".toList

/-- The only parameter keys `getAllFeedback` ever forwards. -/
def feedbackParamWhitelist : List Str :=
  ["page".toList, "limit".toList, "rating".toList, "department".toList]

/-! ### Server bootstrap (`src/server.js`, three variants) -/

/-- An error object reaching the catch-all middleware: `status` and
`message` may be absent or falsy (`none` models undefined, `some 0` /
`some []` a present falsy value), `stack` is the stack trace string. -/
structure ErrObj where
  status : Option Nat
  message : Option Str
  stack : Str
deriving DecidableEq

/-- The JSON body and status the error middleware sends; `error = none`
models the `undefined` field being omitted from the JSON. -/
structure ErrorResponse where
  status : Nat
  message : Str
  error : Option Str
deriving DecidableEq

/-- Models `err.status || 500` under JS truthiness (undefined or 0 falls
back). -/
def statusOr500 (v : Option Nat) : Nat :=
  match v with
  | some n => if n = 0 then 500 else n
  | none => 500

/-- Models the fallback `err.message || generic` under JS truthiness
(undefined or empty string falls back to `Something went wrong!`). -/
def messageOrGeneric (v : Option Str) : Str :=
  match v with
  | some m => if m = [] then "Something went wrong!".toList else m
  | none => "Something went wrong!".toList

/-- The catch-all error middleware of the second server variant
(server.js lines 133-139): status `err.status || 500`, body
a `message` field falling back to the generic text, and an `error`
field that is the stack trace when `NODE_ENV` equals `development` and
`undefined` otherwise. -/
def errorMiddleware (nodeEnv : Str) (err : ErrObj) : ErrorResponse :=
  { status := statusOr500 err.status
    message := messageOrGeneric err.message
    error := if nodeEnv = "development".toList then some err.stack else none }

/-- The route groups mounted with `app.use` in each server variant. -/
inductive RouteGroup where
  | uploadsStatic
  | organizations
  | auth
  | users
  | departments
  | complaintTypes
  | complaints
  | workflows
  | notifications
  | feedback
deriving DecidableEq

/-- Express `app.use(prefix, handler)` path matching: the request path
starts with the mount prefix, and the first character after the prefix
(if any) is a slash. -/
def mountMatches (pre path : Str) : Bool :=
  pre.isPrefixOf path &&
    (match path.drop pre.length with
     | [] => true
     | c :: _ => c == '/')

/-- Express dispatch over the `app.use` registrations in order: the first
mount whose prefix matches the request path handles it. -/
def dispatch (routes : List (Str × RouteGroup)) (path : Str) :
    Option RouteGroup :=
  match routes with
  | [] => none
  | (pre, g) :: rest =>
    if mountMatches pre path then some g else dispatch rest path

/-- The `app.use` registrations of the first server variant
(server.js lines 33 and 39-47), in source order. -/
def serverV1Routes : List (Str × RouteGroup) :=
  [("/uploads".toList, .uploadsStatic),
   ("/api/organizations".toList, .organizations),
   ("/api/auth".toList, .auth),
   ("/api/users".toList, .users),
   ("/api/departments".toList, .departments),
   ("/api/complaints/types".toList, .complaintTypes),
   ("/api/complaints".toList, .complaints),
   ("/api/workflows".toList, .workflows),
   ("/api/notifications".toList, .notifications),
   ("/api/feedback".toList, .feedback)]

/-- The `app.use` registrations of the second server variant
(server.js lines 97 and 112-120), in source order. -/
def serverV2Routes : List (Str × RouteGroup) :=
  [("/uploads".toList, .uploadsStatic),
   ("/api/organizations".toList, .organizations),
   ("/api/auth".toList, .auth),
   ("/api/users".toList, .users),
   ("/api/departments".toList, .departments),
   ("/api/complaints/types".toList, .complaintTypes),
   ("/api/complaints".toList, .complaints),
   ("/api/workflows".toList, .workflows),
   ("/api/notifications".toList, .notifications),
   ("/api/feedback".toList, .feedback)]

/-- The `app.use` registrations of the third server variant
(server.js lines 189 and 195-203), in source order. -/
def serverV3Routes : List (Str × RouteGroup) :=
  [("/uploads".toList, .uploadsStatic),
   ("/api/organizations".toList, .organizations),
   ("/api/auth".toList, .auth),
   ("/api/users".toList, .users),
   ("/api/departments".toList, .departments),
   ("/api/complaints/types".toList, .complaintTypes),
   ("/api/complaints".toList, .complaints),
   ("/api/workflows".toList, .workflows),
   ("/api/notifications".toList, .notifications),
   ("/api/feedback".toList, .feedback)]

/-- The position at which a route group is registered in the `app.use`
order of a variant. -/
def routeIndex (routes : List (Str × RouteGroup)) (g : RouteGroup) : Nat :=
  routes.findIdx (fun r => r.2 == g)

/-- The complaint-type mount prefix. -/
def typesPrefix : Str := "/api/complaints/types".toList

/-! ### Helper lemmas about list-prefix tests -/

/-- Boolean prefix test as an existential. -/
theorem isPrefixOf_eq_true_iff {l₁ l₂ : Str} :
    l₁.isPrefixOf l₂ = true ↔ ∃ t, l₁ ++ t = l₂ :=
  List.isPrefixOf_iff_prefix

/-- A list is a prefix of itself followed by anything. -/
theorem isPrefixOf_append_self (l t : Str) : l.isPrefixOf (l ++ t) = true :=
  isPrefixOf_eq_true_iff.mpr ⟨t, rfl⟩

/-- Two prefixes of the same list are comparable by length. -/
theorem isPrefixOf_of_isPrefixOf_of_length_le {l₁ l₂ p : Str}
    (h1 : l₁.isPrefixOf p = true) (h2 : l₂.isPrefixOf p = true)
    (hlen : l₁.length ≤ l₂.length) : l₁.isPrefixOf l₂ = true := by
  obtain ⟨a, ha⟩ := isPrefixOf_eq_true_iff.mp h1
  obtain ⟨b, hb⟩ := isPrefixOf_eq_true_iff.mp h2
  exact isPrefixOf_eq_true_iff.mpr
    ( List.prefix_of_prefix_length_le ⟨a, ha⟩ ⟨b, hb⟩ hlen)

/-- The header value always starts with the bearer marker. -/
theorem authHeaderValue_startsWith (t : Str) :
    bearerPrefix.isPrefixOf (authHeaderValue t) = true := by
  by_cases h : bearerPrefix.isPrefixOf t = true
  · simp [authHeaderValue, h]
  · simp only [Bool.not_eq_true] at h
    simp [authHeaderValue, h, isPrefixOf_append_self]

/-- The header computation of the request interceptor is idempotent. -/
theorem authHeaderValue_idem (t : Str) :
    authHeaderValue (authHeaderValue t) = authHeaderValue t := by
  have h := authHeaderValue_startsWith t
  generalize authHeaderValue t = v at h ⊢
  simp [authHeaderValue, h]

/-- Prepending the marker to a token that does not carry it yields a value
carrying it exactly once. -/
theorem hasBearerPrefixOnce_append (t : Str)
    (h : bearerPrefix.isPrefixOf t = false) :
    hasBearerPrefixOnce (bearerPrefix ++ t) = true := by
  simp [hasBearerPrefixOnce, isPrefixOf_append_self, List.drop_left, h]

/-- Unless the stored token already stacks two bearer markers, the header
value carries the marker exactly once. -/
theorem hasBearerPrefixOnce_authHeaderValue (t : Str)
    (h2 : (bearerPrefix ++ bearerPrefix).isPrefixOf t = false) :
    hasBearerPrefixOnce (authHeaderValue t) = true := by
  by_cases h : bearerPrefix.isPrefixOf t = true
  · obtain ⟨r, rfl⟩ := isPrefixOf_eq_true_iff.mp h
    have hr : bearerPrefix.isPrefixOf r = false := by
      by_contra hc
      rw [Bool.not_eq_false] at hc
      obtain ⟨r2, rfl⟩ := isPrefixOf_eq_true_iff.mp hc
      have hstack : (bearerPrefix ++ bearerPrefix).isPrefixOf
          (bearerPrefix ++ (bearerPrefix ++ r2)) = true := by
        rw [← List.append_assoc]
        exact isPrefixOf_append_self _ _
      simp [hstack] at h2
    simp [authHeaderValue, h, hasBearerPrefixOnce, List.drop_left, hr,
      isPrefixOf_append_self]
  · simp only [Bool.not_eq_true] at h
    simp [authHeaderValue, h]
    exact hasBearerPrefixOnce_append t h

/-! ### Claims -/

/-- C1 (amended): for every persisted truthy (non-empty) token `t` the
request interceptor sets the Authorization header to `t` when `t`
already starts with the bearer marker and to the marker followed by `t`
otherwise; the header computation is idempotent; the header always
starts with the marker, and carries it exactly once whenever `t` does
not already stack two markers.  A persisted empty-string token (falsy
under the `if (token)` guard) or an absent entry leaves the config
unchanged. -/
theorem C1_request_interceptor_header (t : Str) (cfg : RequestConfig)
    (ht : t ≠ []) :
    (requestInterceptor (some t) cfg).authorization
      = some (authHeaderValue t) ∧
    authHeaderValue t
      = (if bearerPrefix.isPrefixOf t then t else bearerPrefix ++ t) ∧
    authHeaderValue (authHeaderValue t) = authHeaderValue t ∧
    bearerPrefix.isPrefixOf (authHeaderValue t) = true ∧
    ((bearerPrefix ++ bearerPrefix).isPrefixOf t = false →
      hasBearerPrefixOnce (authHeaderValue t) = true) ∧
    requestInterceptor (some []) cfg = cfg ∧
    requestInterceptor none cfg = cfg :=
  ⟨by simp [requestInterceptor, ht], rfl, authHeaderValue_idem t,
    authHeaderValue_startsWith t, hasBearerPrefixOnce_authHeaderValue t,
    rfl, rfl⟩

/-- C1 witness: concrete instance of the amended claim at token `abc`. -/
theorem C1_request_interceptor_header_witness :
    ("abc".toList ≠ ([] : Str)) ∧
    (bearerPrefix ++ bearerPrefix).isPrefixOf "abc".toList = false ∧
    (requestInterceptor (some "abc".toList)
        { authorization := none }).authorization
      = some (authHeaderValue "abc".toList) ∧
    hasBearerPrefixOnce (authHeaderValue "abc".toList) = true :=
  ⟨by decide, by decide,
    (C1_request_interceptor_header "abc".toList
      { authorization := none } (by decide)).1,
    (C1_request_interceptor_header "abc".toList
      { authorization := none } (by decide)).2.2.2.2.1 (by decide)⟩

/-- C1 counterexample: for the persisted token `Bearer Bearer x` the
interceptor sets the header to the token itself, and that header carries
the bearer marker twice, refuting that the header always carries exactly
one bearer prefix. -/
theorem C1_counterexample :
    (requestInterceptor (some "Bearer Bearer x".toList)
        { authorization := none }).authorization
      = some "Bearer Bearer x".toList ∧
    hasBearerPrefixOnce (authHeaderValue "Bearer Bearer x".toList)
      = false := by
  decide

/-- C3 (amended): every value `loginUser` writes to the token storage
entry is the bearer marker prepended unconditionally to the server token;
the stored value carries the marker exactly once provided the server
token does not itself start with the marker.  The other operations on
the entry only remove it. -/
theorem C3_stored_token_marker_once (email : Str) (orgId : Nat)
    (resp : LoginResponse) (s : ClientState)
    (h : bearerPrefix.isPrefixOf resp.token = false) :
    (loginUser email orgId resp s).1.tokenEntry
      = some (bearerPrefix ++ resp.token) ∧
    hasBearerPrefixOnce (bearerPrefix ++ resp.token) = true ∧
    (handleUnauthorized s).tokenEntry = none ∧
    (clearLocalSession s).tokenEntry = none :=
  ⟨rfl, hasBearerPrefixOnce_append resp.token h, rfl, rfl⟩

/-- C3 witness: concrete instance of the amended claim at server token
`abc`. -/
theorem C3_stored_token_marker_once_witness :
    bearerPrefix.isPrefixOf "abc".toList = false ∧
    hasBearerPrefixOnce (bearerPrefix ++ "abc".toList) = true :=
  ⟨by decide,
    (C3_stored_token_marker_once "a@b.c".toList 1
      { token := "abc".toList, role := [], userId := 0, firstName := [],
        lastName := [], departmentId := none }
      { tokenEntry := none, userEntry := none, defaultAuth := none,
        redirects := [] } (by decide)).2.1⟩

/-- C3 counterexample: a server token already carrying the bearer marker
is stored double-prefixed by `loginUser`, refuting the invariant as
stated. -/
theorem C3_counterexample :
    (loginUser "a@b.c".toList 1
        { token := "Bearer abc".toList, role := [], userId := 0,
          firstName := [], lastName := [], departmentId := none }
        { tokenEntry := none, userEntry := none, defaultAuth := none,
          redirects := [] }).1.tokenEntry
      = some "Bearer Bearer abc".toList ∧
    hasBearerPrefixOnce "Bearer Bearer abc".toList = false := by
  decide

/-- C2: on a 401 response the response interceptor removes the `token`
and `user` storage entries, deletes the default Authorization header,
appends exactly one `/login` redirect, and re-raises the original
error. -/
theorem C2_unauthorized_teardown (e : AxiosError) (s : ClientState)
    (h : e.status = some 401) :
    (responseErrorInterceptor e s).1.tokenEntry = none ∧
    (responseErrorInterceptor e s).1.userEntry = none ∧
    (responseErrorInterceptor e s).1.defaultAuth = none ∧
    (responseErrorInterceptor e s).1.redirects
      = s.redirects ++ ["/login".toList] ∧
    (responseErrorInterceptor e s).2 = e := by
  simp [responseErrorInterceptor, h, handleUnauthorized]

/-- C2 witness: concrete 401 error against a populated client state. -/
theorem C2_unauthorized_teardown_witness :
    ({ response := some { status := 401, data := none },
       message := [] } : AxiosError).status = some 401 ∧
    (responseErrorInterceptor
        { response := some { status := 401, data := none }, message := [] }
        { tokenEntry := some "Bearer t".toList,
          userEntry := some "u".toList,
          defaultAuth := some "Bearer t".toList,
          redirects := [] }).1.tokenEntry = none :=
  ⟨by decide, (C2_unauthorized_teardown _ _ (by decide)).1⟩

/-- C4: a successful login persists the bearer-prefixed server token and
returns a session carrying the caller-supplied organization id, the
prefixed token, and `isAuthenticated = true`; in particular server token
`abc` with organization id 42 yields stored token `Bearer abc` and
returned organization id 42. -/
theorem C4_login_session (email : Str) (orgId : Nat)
    (resp : LoginResponse) (s : ClientState) :
    (loginUser email orgId resp s).1.tokenEntry
      = some (bearerPrefix ++ resp.token) ∧
    (loginUser email orgId resp s).2.organizationId = orgId ∧
    (loginUser email orgId resp s).2.token = bearerPrefix ++ resp.token ∧
    (loginUser email orgId resp s).2.isAuthenticated = true ∧
    (loginUser email 42
        { token := "abc".toList, role := "agent".toList, userId := 7,
          firstName := [], lastName := [], departmentId := none }
        s).1.tokenEntry = some "Bearer abc".toList ∧
    (loginUser email 42
        { token := "abc".toList, role := "agent".toList, userId := 7,
          firstName := [], lastName := [], departmentId := none }
        s).2.organizationId = 42 :=
  ⟨rfl, rfl, rfl, rfl,
    by show some (bearerPrefix ++ "abc".toList) = some "Bearer abc".toList
       decide,
    rfl⟩

/-- C5: both `getWorkflowForComplaint` and `getFeedbackByComplaint`
return `null` (success) when the call fails with status 404, and raise
on every other failure. -/
theorem C5_notfound_to_null (α : Type) (e : AxiosError) :
    (e.status = some 404 →
      getWorkflowForComplaint α (.failure e) = .ok none ∧
      getFeedbackByComplaint α (.failure e) = .ok none) ∧
    (e.status ≠ some 404 →
      getWorkflowForComplaint α (.failure e)
        = .error (payloadOrMessage e) ∧
      getFeedbackByComplaint α (.failure e) = .error (.raw e)) := by
  constructor
  · intro h
    simp [getWorkflowForComplaint, getFeedbackByComplaint, h]
  · intro h
    simp [getWorkflowForComplaint, getFeedbackByComplaint, h]

/-- C5 witness: a 404 failure yields `null` from the workflow lookup and
a 500 failure raises from the feedback lookup. -/
theorem C5_notfound_to_null_witness :
    getWorkflowForComplaint Nat
        (.failure { response := some { status := 404, data := none },
                    message := [] }) = .ok none ∧
    getFeedbackByComplaint Nat
        (.failure { response := some { status := 500, data := none },
                    message := [] })
      = .error (.raw { response := some { status := 500, data := none },
                       message := [] }) :=
  ⟨((C5_notfound_to_null Nat _).1 (by decide)).1,
    ((C5_notfound_to_null Nat _).2 (by decide)).2⟩

/-- C6: whatever the outcome of the remote logout call, `logoutUser`
clears the local session state, and a remote failure is still propagated
to the caller after the cleanup. -/
theorem C6_logout_cleanup (remote : ApiOutcome Unit) (s : ClientState) :
    (logoutUser remote s).2.tokenEntry = none ∧
    (logoutUser remote s).2.userEntry = none ∧
    (logoutUser remote s).2.defaultAuth = none ∧
    (∀ e, remote = .failure e → (logoutUser remote s).1 = .error e) := by
  cases remote <;> simp [logoutUser, clearLocalSession]

/-- C6 witness: a concrete failing remote logout still clears the state
and propagates the error. -/
theorem C6_logout_cleanup_witness :
    (logoutUser (.failure { response := none, message := "netdown".toList })
        { tokenEntry := some "Bearer t".toList,
          userEntry := some "u".toList,
          defaultAuth := some "Bearer t".toList,
          redirects := [] }).2.tokenEntry = none ∧
    (logoutUser (.failure { response := none, message := "netdown".toList })
        { tokenEntry := some "Bearer t".toList,
          userEntry := some "u".toList,
          defaultAuth := some "Bearer t".toList,
          redirects := [] }).1
      = .error { response := none, message := "netdown".toList } :=
  ⟨(C6_logout_cleanup _ _).1, (C6_logout_cleanup _ _).2.2.2 _ rfl⟩

/-- A mount whose prefix fails to match passes the request to the later
registrations. -/
theorem dispatch_cons_neg {pre : Str} {g : RouteGroup}
    {rest : List (Str × RouteGroup)} {p : Str}
    (h : mountMatches pre p = false) :
    dispatch ((pre, g) :: rest) p = dispatch rest p := by
  simp [dispatch, h]

/-- A mount whose prefix matches handles the request. -/
theorem dispatch_cons_pos {pre : Str} {g : RouteGroup}
    {rest : List (Str × RouteGroup)} {p : Str}
    (h : mountMatches pre p = true) :
    dispatch ((pre, g) :: rest) p = some g := by
  simp [dispatch, h]

/-- A mount prefix that is no prefix of `l₂` (and no longer than it)
cannot match any path extending `l₂`. -/
theorem mountMatches_append_false (l₁ l₂ t : Str)
    (hlen : l₁.length ≤ l₂.length) (hpre : l₁.isPrefixOf l₂ = false) :
    mountMatches l₁ (l₂ ++ t) = false := by
  have h : l₁.isPrefixOf (l₂ ++ t) = false := by
    by_contra hc
    rw [Bool.not_eq_false] at hc
    have h2 := isPrefixOf_of_isPrefixOf_of_length_le hc
      (isPrefixOf_append_self l₂ t) hlen
    simp [h2] at hpre
  simp [mountMatches, h]

/-- Any path matched by the complaint-type mount is dispatched to the
complaint-type handlers by the route table shared by all three server
variants. -/
theorem dispatch_types_of_mountMatches (p : Str)
    (h : mountMatches typesPrefix p = true) :
    dispatch serverV1Routes p = some RouteGroup.complaintTypes := by
  have h1 : typesPrefix.isPrefixOf p = true := by
    have h' := h
    simp only [mountMatches, Bool.and_eq_true] at h'
    exact h'.1
  obtain ⟨t, rfl⟩ := isPrefixOf_eq_true_iff.mp h1
  simp only [serverV1Routes]
  rw [dispatch_cons_neg
        (mountMatches_append_false "/uploads".toList typesPrefix t
          (by decide) (by decide)),
      dispatch_cons_neg
        (mountMatches_append_false "/api/organizations".toList typesPrefix t
          (by decide) (by decide)),
      dispatch_cons_neg
        (mountMatches_append_false "/api/auth".toList typesPrefix t
          (by decide) (by decide)),
      dispatch_cons_neg
        (mountMatches_append_false "/api/users".toList typesPrefix t
          (by decide) (by decide)),
      dispatch_cons_neg
        (mountMatches_append_false "/api/departments".toList typesPrefix t
          (by decide) (by decide))]
  exact dispatch_cons_pos h

/-- C7: in every server variant the complaint-type group is registered
strictly before the complaint group, and every request whose path the
complaint-type mount matches is dispatched to the complaint-type
handlers, never to the generic complaints group. -/
theorem C7_types_route_precedence :
    (routeIndex serverV1Routes .complaintTypes
        < routeIndex serverV1Routes .complaints ∧
     routeIndex serverV2Routes .complaintTypes
        < routeIndex serverV2Routes .complaints ∧
     routeIndex serverV3Routes .complaintTypes
        < routeIndex serverV3Routes .complaints) ∧
    ∀ p, mountMatches typesPrefix p = true →
      dispatch serverV1Routes p = some RouteGroup.complaintTypes ∧
      dispatch serverV2Routes p = some RouteGroup.complaintTypes ∧
      dispatch serverV3Routes p = some RouteGroup.complaintTypes := by
  refine ⟨by decide, fun p h => ?_⟩
  have h1 := dispatch_types_of_mountMatches p h
  exact ⟨h1, h1, h1⟩

/-- C7 witness: a concrete request path under the complaint-type prefix
reaches the complaint-type handlers in all three variants. -/
theorem C7_types_route_precedence_witness :
    mountMatches typesPrefix "/api/complaints/types/5".toList = true ∧
    dispatch serverV2Routes "/api/complaints/types/5".toList
      = some RouteGroup.complaintTypes :=
  ⟨by decide,
    (C7_types_route_precedence.2 "/api/complaints/types/5".toList
      (by decide)).2.1⟩

/-- C8 counterexample: with deployment mode `test` — which is not
`production` — the middleware still omits the exception details,
refuting the if-and-only-if as stated. -/
theorem C8_counterexample :
    ¬ ("test".toList = ("production".toList : Str)) ∧
    (errorMiddleware "test".toList
        { status := none, message := none,
          stack := "trace".toList }).error = none := by
  decide

/-- C8 (amended): the catch-all middleware includes the stack trace if
and only if the deployment mode is exactly `development`; the response
always carries the message of the error (or the generic fallback) and a
status of the status of the error (or 500). -/
theorem C8_error_middleware (env : Str) (err : ErrObj) :
    ((errorMiddleware env err).error = some err.stack
      ↔ env = "development".toList) ∧
    (∀ m, err.message = some m → m ≠ [] →
      (errorMiddleware env err).message = m) ∧
    (err.message = none →
      (errorMiddleware env err).message = "Something went wrong!".toList) ∧
    (∀ n, err.status = some n → n ≠ 0 →
      (errorMiddleware env err).status = n) ∧
    (err.status = none → (errorMiddleware env err).status = 500) := by
  refine ⟨?_, ?_, ?_, ?_, ?_⟩
  · by_cases h : env = "development".toList <;> simp [errorMiddleware, h]
  · intro m hm hne
    simp [errorMiddleware, messageOrGeneric, hm, hne]
  · intro hm
    simp [errorMiddleware, messageOrGeneric, hm]
  · intro n hn hne
    simp [errorMiddleware, statusOr500, hn, hne]
  · intro hn
    simp [errorMiddleware, statusOr500, hn]

/-- C8 witness: a concrete error in production mode keeps its message
and status while the details stay omitted. -/
theorem C8_error_middleware_witness :
    (errorMiddleware "production".toList
        { status := some 404, message := some "boom".toList,
          stack := "trace".toList }).message = "boom".toList ∧
    (errorMiddleware "production".toList
        { status := some 404, message := some "boom".toList,
          stack := "trace".toList }).status = 404 :=
  ⟨(C8_error_middleware _ _).2.1 _ rfl (by decide),
   (C8_error_middleware _ _).2.2.2.1 _ rfl (by decide)⟩

/-- Every pair contributed by a guarded append carries that key. -/
theorem appendIfTruthy_key {params : List (Str × Str)} {k : Str}
    {kv : Str × Str} (h : kv ∈ appendIfTruthy params k) : kv.1 = k := by
  obtain ⟨a, b⟩ := kv
  cases hl : jsLookup params k with
  | none => simp [appendIfTruthy, hl] at h
  | some v =>
    by_cases hv : v = []
    · simp [appendIfTruthy, hl, hv] at h
    · simp [appendIfTruthy, hl, hv] at h
      exact h.1

/-- A present, truthy parameter is contributed by its guarded append. -/
theorem appendIfTruthy_self_mem {params : List (Str × Str)} {k v : Str}
    (h : jsLookup params k = some v) (hv : v ≠ []) :
    (k, v) ∈ appendIfTruthy params k := by
  simp [appendIfTruthy, h, hv]

/-- C9 (amended): `getComplaints` forwards its whole filter object to
the query parameters unchanged, while `getAllFeedback` and
`getFeedbackByDepartment` forward only their whitelisted keys — every
whitelisted, truthy parameter is forwarded, and every forwarded pair
carries a whitelisted key. -/
theorem C9_params_forwarding (filters params : List (Str × Str)) :
    getComplaintsParams filters = filters ∧
    (∀ kv ∈ getAllFeedbackQuery params, kv.1 ∈ feedbackParamWhitelist) ∧
    (∀ k v, k ∈ feedbackParamWhitelist → jsLookup params k = some v →
      v ≠ [] → (k, v) ∈ getAllFeedbackQuery params) ∧
    (∀ kv ∈ getFeedbackByDepartmentQuery params,
      kv.1 = "page".toList ∨ kv.1 = "limit".toList
        ∨ kv.1 = "rating".toList) := by
  refine ⟨rfl, ?_, ?_, ?_⟩
  · intro kv hkv
    simp only [getAllFeedbackQuery, List.mem_append] at hkv
    rcases hkv with ((h | h) | h) | h <;>
      simp [feedbackParamWhitelist, appendIfTruthy_key h]
  · intro k v hk hl hv
    have hmem := appendIfTruthy_self_mem hl hv
    simp only [feedbackParamWhitelist, List.mem_cons,
      List.not_mem_nil, or_false] at hk
    simp only [getAllFeedbackQuery, List.mem_append]
    rcases hk with rfl | rfl | rfl | rfl
    · exact Or.inl (Or.inl (Or.inl hmem))
    · exact Or.inl (Or.inl (Or.inr hmem))
    · exact Or.inl (Or.inr hmem)
    · exact Or.inr hmem
  · intro kv hkv
    simp only [getFeedbackByDepartmentQuery, List.mem_append] at hkv
    rcases hkv with (h | h) | h
    · exact Or.inl (appendIfTruthy_key h)
    · exact Or.inr (Or.inl (appendIfTruthy_key h))
    · exact Or.inr (Or.inr (appendIfTruthy_key h))

/-- C9 witness: a truthy `page` parameter is forwarded by
`getAllFeedback`. -/
theorem C9_params_forwarding_witness :
    jsLookup [("page".toList, "2".toList)] "page".toList
      = some "2".toList ∧
    ("page".toList, "2".toList)
      ∈ getAllFeedbackQuery [("page".toList, "2".toList)] :=
  ⟨by decide,
    (C9_params_forwarding [] [("page".toList, "2".toList)]).2.2.1 _ _
      (by decide) (by decide) (by decide)⟩

/-- C9 counterexample: a parameter object with the single key `foo`
yields an empty query from `getAllFeedback` — the key is not forwarded,
refuting that every key of the params object is passed through. -/
theorem C9_counterexample :
    getAllFeedbackQuery [("foo".toList, "1".toList)] = [] ∧
    ("foo".toList, "1".toList)
      ∉ getAllFeedbackQuery [("foo".toList, "1".toList)] := by
  decide

/-- C10 counterexample: when the call succeeds but the body carries no
`organizationId`, the error the caller receives carries the generic
fallback message, not `Organization ID not received in response` — the
internally thrown error is swallowed by the catch block of the same
function. -/
theorem C10_counterexample :
    registerOrganization (.success { organizationId := none })
      = .error regFallbackMsg ∧
    ¬ (registerOrganization (.success { organizationId := none })
        = .error missingIdMsg) := by
  refine ⟨rfl, fun h => ?_⟩
  rw [show registerOrganization (.success { organizationId := none })
        = .error regFallbackMsg from rfl] at h
  exact absurd (Except.error.inj h) (by decide)

/-- C10 (amended): when the call succeeds without a truthy
`organizationId`, the try block throws the missing-id `Error`, but the
catch block replaces it and the caller receives the fixed fallback
message; a normal return always carries a truthy `organizationId`; on a
server-reported failure the raised message is the `msg` of the server
when truthy, else the fallback. -/
theorem C10_register_organization (out : ApiOutcome OrgRegData) :
    (∀ d, out = .success d → orgIdTruthy d = false →
      registerOrganizationTry out = .error (.plainError missingIdMsg) ∧
      registerOrganization out = .error regFallbackMsg) ∧
    (∀ d, registerOrganization out = .ok d → orgIdTruthy d = true) ∧
    (∀ e m, out = .failure e → truthyRespMsg e = some m →
      registerOrganization out = .error m) ∧
    (∀ e, out = .failure e → truthyRespMsg e = none →
      registerOrganization out = .error regFallbackMsg) := by
  refine ⟨?_, ?_, ?_, ?_⟩
  · rintro d rfl hd
    simp [registerOrganization, registerOrganizationTry, hd,
      registerOrganizationCatch]
  · intro d hd
    cases out with
    | failure e =>
      simp [registerOrganization, registerOrganizationTry] at hd
    | success d' =>
      by_cases h : orgIdTruthy d' = true
      · have hdd : d' = d := by
          simpa [registerOrganization, registerOrganizationTry, h] using hd
        rw [← hdd]
        exact h
      · simp only [Bool.not_eq_true] at h
        simp [registerOrganization, registerOrganizationTry, h] at hd
  · rintro e m rfl hm
    simp [registerOrganization, registerOrganizationTry,
      registerOrganizationCatch, hm]
  · rintro e rfl hm
    simp [registerOrganization, registerOrganizationTry,
      registerOrganizationCatch, hm]

/-- C10 witness: concrete missing-id success response. -/
theorem C10_register_organization_witness :
    registerOrganizationTry (.success { organizationId := none })
      = .error (.plainError missingIdMsg) ∧
    registerOrganization (.success { organizationId := none })
      = .error regFallbackMsg :=
  (C10_register_organization (.success { organizationId := none })).1
    { organizationId := none } rfl (by decide)

end ResolveSuite
